import Mathlib

/-!
Shallow embedding of `src/tcp_buffer_tuner.bpf.c` (bpftune's TCP buffer
tuner BPF core) and proofs about its pressure-evaluation and growth-decision
logic.

Modelling conventions:
* C pointers that the code null-checks become `Option`; `bpf_probe_read` of
  `sysctl_mem` becomes an `Option Triple` (`none` = failed probe).
* The process-wide globals (`under_memory_pressure`, `near_memory_pressure`,
  `near_memory_exhaustion`, `conn_count`) become an explicit `TunerState`
  threaded through each entry point.
* `send_sysctl_event` hands a `bpftune_event` to the ring buffer; here every
  invocation returns the list of events it emitted, in emission order.
* C `long`/`int` arithmetic is modelled on `Int`; the values involved are far
  below the 64-bit range in every scenario considered, so wrap-around is not
  modelled.  An arithmetic right shift of a `long` is floor division by a
  power of two, which is `Int` `/` (Euclidean division, floor for positive
  divisors).
-/

namespace BpfTune

/-- Event categories carried in a `bpftune_event`; the constants
`TCP_MEM_PRESSURE`, `TCP_MEM_EXHAUSTION`, `TCP_BUFFER_INCREASE` come from
`tcp_buffer_tuner.h`. -/
inductive EventCategory where
  | TCP_MEM_PRESSURE
  | TCP_MEM_EXHAUSTION
  | TCP_BUFFER_INCREASE
deriving DecidableEq

/-- Which sysctl a tuning event proposes to change (`TCP_BUFFER_TCP_MEM`,
`TCP_BUFFER_TCP_WMEM`, `TCP_BUFFER_TCP_RMEM` from `tcp_buffer_tuner.h`). -/
inductive EventParam where
  | TCP_BUFFER_TCP_MEM
  | TCP_BUFFER_TCP_WMEM
  | TCP_BUFFER_TCP_RMEM
deriving DecidableEq

/-- A three-tier threshold array `long x[3]` as used for `tcp_mem`,
`tcp_wmem`, `tcp_rmem`: (low, pressure, max). -/
structure Triple where
  t0 : Int
  t1 : Int
  t2 : Int
deriving DecidableEq

/-- A tuning event as assembled by `send_sysctl_event`: category, target
sysctl, and the old and proposed new threshold triples. -/
structure TuningEvent where
  category : EventCategory
  param : EventParam
  old_values : Triple
  new_values : Triple
deriving DecidableEq

/-- The write-once accounting constants set from userspace
(`tcp_buffer_tuner.bpf.c` lines 13-16). -/
structure MemAccounting where
  kernel_page_size : Int
  kernel_page_shift : Int
  sk_mem_quantum : Int
  sk_mem_quantum_shift : Int
deriving DecidableEq

/-- The mutable process-wide globals of the BPF object
(`tcp_buffer_tuner.bpf.c` lines 7-10). -/
structure TunerState where
  under_memory_pressure : Bool
  near_memory_pressure : Bool
  near_memory_exhaustion : Bool
  conn_count : Int
deriving DecidableEq

/-- The fields of `struct proto` read by the evaluator:
`memory_allocated->counter` and the `sysctl_mem` pointer, whose probe may
fail (`none`). -/
structure SkProt where
  memory_allocated : Int
  sysctl_mem : Option Triple
deriving DecidableEq

/-- The fields of `struct net` read by the monitors
(`net->ipv4.sysctl_tcp_wmem` and `net->ipv4.sysctl_tcp_rmem`). -/
structure NetNS where
  sysctl_tcp_wmem : Triple
  sysctl_tcp_rmem : Triple
deriving DecidableEq

/-- The fields of `struct sock` read by this tuner; `sk_prot` and the
`sk_net.net` pointer may be null. -/
structure Sock where
  sk_prot : Option SkProt
  sk_net : Option NetNS
  sk_sndbuf : Int
  sk_rcvbuf : Int
  sk_userlocks : Nat
deriving DecidableEq

/-- Kernel constant `SOCK_RCVBUF_LOCK` from the `sk_userlocks` bitmask
(external kernel header). -/
def SOCK_RCVBUF_LOCK : Nat := 2

/-- Modelled from the spec: the macro `NEARLY_FULL` of `bpftune.bpf.h` (a
header of this repository not present under `src/`): "nearly full" holds iff
`allocated * 4 > threshold * 3`, i.e. strictly above 75% occupancy. -/
def NEARLY_FULL (v limit : Int) : Bool := decide (v * 4 > limit * 3)

/-- Modelled from the spec: the macro `BPFTUNE_GROW_BY_QUARTER` of
`bpftune.bpf.h` (a header of this repository not present under `src/`):
`new = old + old/4` with C integer (truncating) division. -/
def BPFTUNE_GROW_BY_QUARTER (v : Int) : Int := v + v.tdiv 4

/-- One iteration of the unit-conversion loop of `tcp_nearly_out_of_memory`
(`tcp_buffer_tuner.bpf.c` lines 39-48): rescale one threshold tier, read in
kernel-page units, towards `sk_mem_quantum` units.  The source's branch
condition compares `kernel_page_size` with the tier value itself.  A C shift
by a negative count is undefined behaviour; the model shifts by
`(difference).toNat`, and no theorem below exercises that path. -/
def scale_to_quantum (cfg : MemAccounting) (v : Int) : Int :=
  if cfg.kernel_page_size > v then
    v * 2 ^ (cfg.kernel_page_shift - cfg.sk_mem_quantum_shift).toNat
  else if cfg.kernel_page_size < v then
    v / 2 ^ (cfg.sk_mem_quantum_shift - cfg.kernel_page_shift).toNat
  else v

/-- Modelled from the spec: the Quantum Converter policy of spec section 4.1
— if the target unit (`sk_mem_quantum`) is coarser than the source unit
(kernel page), right-shift by the difference of shift exponents; if finer,
left-shift by the difference; the direction depends only on the units, never
on the converted value. -/
def spec_scale_to_quantum (cfg : MemAccounting) (v : Int) : Int :=
  if cfg.sk_mem_quantum > cfg.kernel_page_size then
    v / 2 ^ (cfg.sk_mem_quantum_shift - cfg.kernel_page_shift).toNat
  else if cfg.sk_mem_quantum < cfg.kernel_page_size then
    v * 2 ^ (cfg.kernel_page_shift - cfg.sk_mem_quantum_shift).toNat
  else v

/-- Result of one evaluator or entry-point invocation: returned value,
updated process-wide state, and the events emitted, in emission order. -/
structure RunResult (α : Type) where
  ret : α
  state : TunerState
  events : List TuningEvent
deriving DecidableEq

/-- Shallow embedding of `tcp_nearly_out_of_memory` (`tcp_buffer_tuner.bpf.c`
lines 19-80), the Pressure Evaluator.  Aborts returning `false` with no event
if `sk_prot` is null, the probe of `sysctl_mem` fails, or `tcp_mem[2]` is
zero; otherwise rescales the tiers, overwrites `near_memory_pressure` and
`near_memory_exhaustion` from the two `NEARLY_FULL` tests, emits the
corresponding events, and returns their disjunction. -/
def tcp_nearly_out_of_memory (cfg : MemAccounting) (st : TunerState)
    (sk : Sock) : RunResult Bool :=
  match sk.sk_prot with
  | none => ⟨false, st, []⟩
  | some prot =>
    let allocated := prot.memory_allocated
    match prot.sysctl_mem with
    | none => ⟨false, st, []⟩
    | some tcp_mem =>
      if tcp_mem.t2 = 0 then ⟨false, st, []⟩
      else
        let limit1 := scale_to_quantum cfg tcp_mem.t1
        let limit2 := scale_to_quantum cfg tcp_mem.t2
        let near_p := NEARLY_FULL allocated limit1
        let near_e := NEARLY_FULL allocated limit2
        let pressure_events : List TuningEvent :=
          if near_p then
            [⟨.TCP_MEM_PRESSURE, .TCP_BUFFER_TCP_MEM, tcp_mem,
              ⟨BPFTUNE_GROW_BY_QUARTER tcp_mem.t0,
               BPFTUNE_GROW_BY_QUARTER tcp_mem.t1,
               BPFTUNE_GROW_BY_QUARTER tcp_mem.t2⟩⟩]
          else []
        let exhaustion_events : List TuningEvent :=
          if near_e then
            [⟨.TCP_MEM_EXHAUSTION, .TCP_BUFFER_TCP_MEM, tcp_mem,
              ⟨tcp_mem.t0, tcp_mem.t1, BPFTUNE_GROW_BY_QUARTER tcp_mem.t2⟩⟩]
          else []
        ⟨near_p || near_e,
         { st with near_memory_pressure := near_p,
                   near_memory_exhaustion := near_e },
         pressure_events ++ exhaustion_events⟩

/-- Shallow embedding of the `bpftune_sndbuf_expand` program
(`tcp_buffer_tuner.bpf.c` lines 107-133), the Send Buffer Growth Monitor. -/
def bpftune_sndbuf_expand (cfg : MemAccounting) (st : TunerState)
    (osk : Option Sock) : RunResult Int :=
  match osk with
  | none => ⟨0, st, []⟩
  | some sk =>
    match sk.sk_net with
    | none => ⟨0, st, []⟩
    | some net =>
      if st.near_memory_pressure || st.near_memory_exhaustion then ⟨0, st, []⟩
      else
        let sndbuf := sk.sk_sndbuf
        let wmem2 := net.sysctl_tcp_wmem.t2
        if NEARLY_FULL sndbuf wmem2 then
          let r := tcp_nearly_out_of_memory cfg st sk
          if r.ret then ⟨0, r.state, r.events⟩
          else
            let w := net.sysctl_tcp_wmem
            ⟨0, r.state,
             r.events ++
               [⟨.TCP_BUFFER_INCREASE, .TCP_BUFFER_TCP_WMEM,
                 ⟨w.t0, w.t1, wmem2⟩,
                 ⟨w.t0, w.t1, BPFTUNE_GROW_BY_QUARTER wmem2⟩⟩]⟩
        else ⟨0, st, []⟩

/-- Shallow embedding of the `bpftune_rcvbuf_adjust` program
(`tcp_buffer_tuner.bpf.c` lines 139-168), the Receive Buffer Growth
Monitor. -/
def bpftune_rcvbuf_adjust (cfg : MemAccounting) (st : TunerState)
    (osk : Option Sock) : RunResult Int :=
  match osk with
  | none => ⟨0, st, []⟩
  | some sk =>
    match sk.sk_net with
    | none => ⟨0, st, []⟩
    | some net =>
      if sk.sk_userlocks &&& SOCK_RCVBUF_LOCK ≠ 0 ∨
         st.near_memory_pressure ∨ st.near_memory_exhaustion then ⟨0, st, []⟩
      else
        let rcvbuf := sk.sk_rcvbuf
        let rmem2 := net.sysctl_tcp_rmem.t2
        if NEARLY_FULL rcvbuf rmem2 then
          let r := tcp_nearly_out_of_memory cfg st sk
          if r.ret then ⟨0, r.state, r.events⟩
          else
            let rm := net.sysctl_tcp_rmem
            ⟨0, r.state,
             r.events ++
               [⟨.TCP_BUFFER_INCREASE, .TCP_BUFFER_TCP_RMEM,
                 ⟨rm.t0, rm.t1, rmem2⟩,
                 ⟨rm.t0, rm.t1, BPFTUNE_GROW_BY_QUARTER rmem2⟩⟩]⟩
        else ⟨0, st, []⟩

/-- Shallow embedding of the `bpftune_enter_memory_pressure` program
(`tcp_buffer_tuner.bpf.c` lines 82-87). -/
def bpftune_enter_memory_pressure (st : TunerState) (_osk : Option Sock) :
    RunResult Int :=
  ⟨0, { st with under_memory_pressure := true }, []⟩

/-- Shallow embedding of the `bpftune_leave_memory_pressure` program
(`tcp_buffer_tuner.bpf.c` lines 89-94). -/
def bpftune_leave_memory_pressure (st : TunerState) (_osk : Option Sock) :
    RunResult Int :=
  ⟨0, { st with under_memory_pressure := false }, []⟩

/-- Shallow embedding of the `bpftune_tcp_init_sock` program
(`tcp_buffer_tuner.bpf.c` lines 170-178), the Connection Lifecycle Hook. -/
def bpftune_tcp_init_sock (cfg : MemAccounting) (st : TunerState)
    (osk : Option Sock) : RunResult Int :=
  match osk with
  | none => ⟨0, st, []⟩
  | some sk =>
    let r := tcp_nearly_out_of_memory cfg st sk
    ⟨0, r.state, r.events⟩

/-! Concrete inputs used by the witnesses below. -/

/-- Page size 4096 (shift 12) and quantum 4096 (shift 12): with these
constants the tier rescaling is the identity. -/
def cfg0 : MemAccounting := ⟨4096, 12, 4096, 12⟩

/-- A `tcp_mem` threshold triple (low 90, pressure 100, max 200), page
units. -/
def mem0 : Triple := ⟨90, 100, 200⟩

/-- Namespace sysctls: `tcp_wmem = (4096, 16384, 100)` and
`tcp_rmem = (4096, 131072, 100)`. -/
def net0 : NetNS := ⟨⟨4096, 16384, 100⟩, ⟨4096, 131072, 100⟩⟩

/-- Protocol state with a low allocated counter: no tier is nearly full. -/
def prot_idle : SkProt := ⟨10, some mem0⟩

/-- Protocol state with allocated 80: nearly full w.r.t. tier 1 (100) but
not w.r.t. tier 2 (200). -/
def prot_hot : SkProt := ⟨80, some mem0⟩

/-- Protocol state with allocated 180: nearly full w.r.t. both tiers. -/
def prot_crit : SkProt := ⟨180, some mem0⟩

/-- An unlocked socket with a 76-byte send/receive buffer against max 100
(above 75% occupancy) and an idle protocol. -/
def sock0 : Sock := ⟨some prot_idle, some net0, 76, 76, 0⟩

/-- Like `sock0` but with the protocol allocation near the pressure tier. -/
def sock_hot : Sock := ⟨some prot_hot, some net0, 76, 76, 0⟩

/-- Like `sock0` but with the protocol allocation near the max tier. -/
def sock_crit : Sock := ⟨some prot_crit, some net0, 76, 76, 0⟩

/-- A socket whose `sk_prot` pointer is null. -/
def sock_no_prot : Sock := ⟨none, some net0, 76, 76, 0⟩

/-- A socket whose network-namespace pointer is null. -/
def sock_no_net : Sock := ⟨some prot_idle, none, 76, 76, 0⟩

/-- Like `sock0` but with `SOCK_RCVBUF_LOCK` set in `sk_userlocks`. -/
def sock_locked : Sock := ⟨some prot_idle, some net0, 76, 76, SOCK_RCVBUF_LOCK⟩

/-- Quiescent global state: all flags clear. -/
def st0 : TunerState := ⟨false, false, false, 0⟩

/-- Global state with `near_memory_pressure` already set. -/
def st_near_p : TunerState := ⟨false, true, false, 0⟩

/-- Accounting constants with a page (4096, shift 12) coarser than the
quantum (2048, shift 11): every page-unit value must be left-shifted by one
to reach quantum units. -/
def cfg_c3 : MemAccounting := ⟨4096, 12, 2048, 11⟩

/-- The buffer-increase event emitted for `sock0`'s send path:
`tcp_wmem = (4096, 16384, 100)` grows to `(4096, 16384, 125)`. -/
def ev0 : TuningEvent :=
  ⟨.TCP_BUFFER_INCREASE, .TCP_BUFFER_TCP_WMEM,
   ⟨4096, 16384, 100⟩, ⟨4096, 16384, 125⟩⟩

/-- Updating only the `under_memory_pressure` flag of the global state. -/
def set_under (st : TunerState) (b : Bool) : TunerState :=
  { st with under_memory_pressure := b }

/-! Helper lemmas shared by several claims. -/

/-- Every event the Pressure Evaluator emits is a memory-pressure or
memory-exhaustion event, never a buffer-increase proposal. -/
theorem tcp_noom_events_not_increase (cfg : MemAccounting) (st : TunerState)
    (sk : Sock) :
    ∀ e ∈ (tcp_nearly_out_of_memory cfg st sk).events,
      e.category ≠ EventCategory.TCP_BUFFER_INCREASE := by
  intro e he
  cases hp : sk.sk_prot with
  | none => simp [tcp_nearly_out_of_memory, hp] at he
  | some prot =>
    cases hm : prot.sysctl_mem with
    | none => simp [tcp_nearly_out_of_memory, hp, hm] at he
    | some mem =>
      by_cases h2 : mem.t2 = 0
      · simp [tcp_nearly_out_of_memory, hp, hm, h2] at he
      · simp only [tcp_nearly_out_of_memory, hp, hm, if_neg h2] at he
        rcases List.mem_append.1 he with h | h <;> split at h <;> simp_all

/-- C2: the `NEARLY_FULL` predicate used in the Pressure Evaluator's tier
tests and in both growth monitors' occupancy tests holds iff `4*A > 3*T`;
at the exact 75% boundary (`4*A = 3*T`) it is false. -/
theorem nearly_full_iff_ratio (A T : Int) :
    (NEARLY_FULL A T = true ↔ 4 * A > 3 * T) ∧
    (4 * A = 3 * T → NEARLY_FULL A T = false) := by
  constructor
  · simp only [NEARLY_FULL, decide_eq_true_eq]
    omega
  · intro h
    simp only [NEARLY_FULL, decide_eq_false_iff_not]
    omega

/-- Witness for C2 at the boundary input A = 3, T = 4 (4*3 = 3*4). -/
theorem nearly_full_iff_ratio_witness :
    (NEARLY_FULL 3 4 = true ↔ 4 * (3 : Int) > 3 * 4) ∧ NEARLY_FULL 3 4 = false :=
  ⟨(nearly_full_iff_ratio 3 4).1, (nearly_full_iff_ratio 3 4).2 (by decide)⟩

/-- C3 (refuted): with `cfg_c3` the source's conversion leaves a tier equal
to the page size (4096) unconverted while converting the tier 100 of the
same triple, because its branch condition compares `kernel_page_size` with
the tier value itself; the spec's unit-determined policy
(`spec_scale_to_quantum`) converts both. -/
theorem scale_to_quantum_value_dependent :
    scale_to_quantum cfg_c3 4096 = 4096 ∧
    scale_to_quantum cfg_c3 100 = 200 ∧
    spec_scale_to_quantum cfg_c3 4096 = 8192 ∧
    spec_scale_to_quantum cfg_c3 100 = 200 := by
  refine ⟨?_, ?_, ?_, ?_⟩ <;> decide

/-- C4: when `sk_prot` is null, or the probe of the threshold triple fails,
or the max tier reads as zero, the Pressure Evaluator returns false, emits
no event, and leaves the whole global state (in particular
`near_memory_pressure` and `near_memory_exhaustion`) unchanged. -/
theorem tcp_nearly_out_of_memory_abort (cfg : MemAccounting)
    (st : TunerState) (sk : Sock)
    (h : sk.sk_prot = none ∨
         (∃ prot, sk.sk_prot = some prot ∧ prot.sysctl_mem = none) ∨
         (∃ prot mem, sk.sk_prot = some prot ∧ prot.sysctl_mem = some mem ∧
            mem.t2 = 0)) :
    tcp_nearly_out_of_memory cfg st sk = ⟨false, st, []⟩ := by
  rcases h with h | ⟨prot, hp, hm⟩ | ⟨prot, mem, hp, hm, h2⟩
  · simp [tcp_nearly_out_of_memory, h]
  · simp [tcp_nearly_out_of_memory, hp, hm]
  · simp [tcp_nearly_out_of_memory, hp, hm, h2]

/-- Witness for C4 on `sock_no_prot`, whose `sk_prot` is null. -/
theorem tcp_nearly_out_of_memory_abort_witness :
    sock_no_prot.sk_prot = none ∧
    tcp_nearly_out_of_memory cfg0 st0 sock_no_prot = ⟨false, st0, []⟩ :=
  ⟨rfl, tcp_nearly_out_of_memory_abort cfg0 st0 sock_no_prot (Or.inl rfl)⟩

/-- C1: if `near_memory_pressure` or `near_memory_exhaustion` is set on
entry, or the Pressure Evaluator invoked inside the monitor reports true,
then neither growth monitor emits a `TCP_BUFFER_INCREASE` event in that
invocation. -/
theorem growth_monitors_gated (cfg : MemAccounting) (st : TunerState)
    (osk : Option Sock)
    (h : st.near_memory_pressure = true ∨ st.near_memory_exhaustion = true ∨
         ∀ sk, osk = some sk → (tcp_nearly_out_of_memory cfg st sk).ret = true) :
    (∀ e ∈ (bpftune_sndbuf_expand cfg st osk).events,
       e.category ≠ EventCategory.TCP_BUFFER_INCREASE) ∧
    (∀ e ∈ (bpftune_rcvbuf_adjust cfg st osk).events,
       e.category ≠ EventCategory.TCP_BUFFER_INCREASE) := by
  cases osk with
  | none =>
    exact ⟨by simp [bpftune_sndbuf_expand], by simp [bpftune_rcvbuf_adjust]⟩
  | some sk =>
    constructor
    · intro e he
      cases hn : sk.sk_net with
      | none => simp [bpftune_sndbuf_expand, hn] at he
      | some net =>
        simp only [bpftune_sndbuf_expand, hn] at he
        by_cases hg : (st.near_memory_pressure || st.near_memory_exhaustion)
            = true
        · rw [if_pos hg] at he
          simp at he
        · rw [if_neg hg] at he
          have hret : (tcp_nearly_out_of_memory cfg st sk).ret = true := by
            rcases h with h | h | h
            · simp [h] at hg
            · simp [h] at hg
            · exact h sk rfl
          by_cases hf : NEARLY_FULL sk.sk_sndbuf net.sysctl_tcp_wmem.t2 = true
          · rw [if_pos hf, if_pos hret] at he
            exact tcp_noom_events_not_increase cfg st sk e he
          · rw [if_neg hf] at he
            simp at he
    · intro e he
      cases hn : sk.sk_net with
      | none => simp [bpftune_rcvbuf_adjust, hn] at he
      | some net =>
        simp only [bpftune_rcvbuf_adjust, hn] at he
        by_cases hg : sk.sk_userlocks &&& SOCK_RCVBUF_LOCK ≠ 0 ∨
            st.near_memory_pressure = true ∨ st.near_memory_exhaustion = true
        · rw [if_pos hg] at he
          simp at he
        · rw [if_neg hg] at he
          have hret : (tcp_nearly_out_of_memory cfg st sk).ret = true := by
            rcases h with h | h | h
            · exact absurd (Or.inr (Or.inl h)) hg
            · exact absurd (Or.inr (Or.inr h)) hg
            · exact h sk rfl
          by_cases hf : NEARLY_FULL sk.sk_rcvbuf net.sysctl_tcp_rmem.t2 = true
          · rw [if_pos hf, if_pos hret] at he
            exact tcp_noom_events_not_increase cfg st sk e he
          · rw [if_neg hf] at he
            simp at he

/-- Witness for C1: with `near_memory_pressure` already set, neither monitor
emits a buffer-increase event for `sock0`. -/
theorem growth_monitors_gated_witness :
    st_near_p.near_memory_pressure = true ∧
    ((∀ e ∈ (bpftune_sndbuf_expand cfg0 st_near_p (some sock0)).events,
        e.category ≠ EventCategory.TCP_BUFFER_INCREASE) ∧
     (∀ e ∈ (bpftune_rcvbuf_adjust cfg0 st_near_p (some sock0)).events,
        e.category ≠ EventCategory.TCP_BUFFER_INCREASE)) :=
  ⟨rfl, growth_monitors_gated cfg0 st_near_p (some sock0) (Or.inl rfl)⟩

/-- C8: when `SOCK_RCVBUF_LOCK` is set in `sk_userlocks`, the receive
monitor returns 0 with no event and an unchanged global state, whatever the
occupancy ratio and whatever the Pressure Evaluator would have computed
(had it run, a nearly-full protocol state would have rewritten the flags,
so the unchanged state also shows the evaluator is not invoked). -/
theorem rcvbuf_locked_noop (cfg : MemAccounting) (st : TunerState) (sk : Sock)
    (h : sk.sk_userlocks &&& SOCK_RCVBUF_LOCK ≠ 0) :
    bpftune_rcvbuf_adjust cfg st (some sk) = ⟨0, st, []⟩ := by
  cases hn : sk.sk_net with
  | none => simp [bpftune_rcvbuf_adjust, hn]
  | some net => simp [bpftune_rcvbuf_adjust, hn, h]

/-- Witness for C8 on `sock_locked`, which is above 75% occupancy. -/
theorem rcvbuf_locked_noop_witness :
    sock_locked.sk_userlocks &&& SOCK_RCVBUF_LOCK ≠ 0 ∧
    bpftune_rcvbuf_adjust cfg0 st0 (some sock_locked) = ⟨0, st0, []⟩ :=
  ⟨by decide, rcvbuf_locked_noop cfg0 st0 sock_locked (by decide)⟩

/-- C10: a null socket handle makes every monitor and the lifecycle hook
return 0 with no event and an unchanged state, and a null network-namespace
handle does the same for the two growth monitors. -/
theorem null_handle_noop (cfg : MemAccounting) (st : TunerState) (sk : Sock)
    (h : sk.sk_net = none) :
    bpftune_sndbuf_expand cfg st none = ⟨0, st, []⟩ ∧
    bpftune_rcvbuf_adjust cfg st none = ⟨0, st, []⟩ ∧
    bpftune_tcp_init_sock cfg st none = ⟨0, st, []⟩ ∧
    bpftune_sndbuf_expand cfg st (some sk) = ⟨0, st, []⟩ ∧
    bpftune_rcvbuf_adjust cfg st (some sk) = ⟨0, st, []⟩ :=
  ⟨rfl, rfl, rfl, by simp [bpftune_sndbuf_expand, h],
   by simp [bpftune_rcvbuf_adjust, h]⟩

/-- Witness for C10 on `sock_no_net`, whose namespace pointer is null. -/
theorem null_handle_noop_witness :
    sock_no_net.sk_net = none ∧
    (bpftune_sndbuf_expand cfg0 st0 none = ⟨0, st0, []⟩ ∧
     bpftune_rcvbuf_adjust cfg0 st0 none = ⟨0, st0, []⟩ ∧
     bpftune_tcp_init_sock cfg0 st0 none = ⟨0, st0, []⟩ ∧
     bpftune_sndbuf_expand cfg0 st0 (some sock_no_net) = ⟨0, st0, []⟩ ∧
     bpftune_rcvbuf_adjust cfg0 st0 (some sock_no_net) = ⟨0, st0, []⟩) :=
  ⟨rfl, null_handle_noop cfg0 st0 sock_no_net rfl⟩

/-- C5: in a non-aborting evaluation, `near_memory_pressure` is set exactly
to the `NEARLY_FULL` test of the allocated counter against the converted
pressure tier; exactly one `TCP_MEM_PRESSURE` event is emitted when that
test holds and none otherwise, and any such event carries the original
page-unit triple as old values and the quarter-grown triple (all three
tiers grown by `old + old/4`) as new values. -/
theorem pressure_branch_spec (cfg : MemAccounting) (st : TunerState)
    (sk : Sock) (prot : SkProt) (mem : Triple)
    (hp : sk.sk_prot = some prot) (hm : prot.sysctl_mem = some mem)
    (h2 : mem.t2 ≠ 0) :
    ((tcp_nearly_out_of_memory cfg st sk).state.near_memory_pressure =
       NEARLY_FULL prot.memory_allocated (scale_to_quantum cfg mem.t1)) ∧
    ((tcp_nearly_out_of_memory cfg st sk).events.countP
       (fun e => e.category == EventCategory.TCP_MEM_PRESSURE) =
       if NEARLY_FULL prot.memory_allocated (scale_to_quantum cfg mem.t1)
       then 1 else 0) ∧
    (∀ e ∈ (tcp_nearly_out_of_memory cfg st sk).events,
       e.category = EventCategory.TCP_MEM_PRESSURE →
       e.old_values = mem ∧
       e.new_values = ⟨BPFTUNE_GROW_BY_QUARTER mem.t0,
                       BPFTUNE_GROW_BY_QUARTER mem.t1,
                       BPFTUNE_GROW_BY_QUARTER mem.t2⟩) := by
  simp only [tcp_nearly_out_of_memory, hp, hm, if_neg h2]
  by_cases h1 : NEARLY_FULL prot.memory_allocated (scale_to_quantum cfg mem.t1)
      = true
  · by_cases hE : NEARLY_FULL prot.memory_allocated (scale_to_quantum cfg mem.t2)
        = true
    · simp [h1, hE]
    · simp [h1, hE]
  · by_cases hE : NEARLY_FULL prot.memory_allocated (scale_to_quantum cfg mem.t2)
        = true
    · simp [h1, hE]
    · simp [h1, hE]

/-- Witness for C5 on `sock_hot`: allocated 80 against pressure tier 100
(320 > 300), so the pressure branch fires. -/
theorem pressure_branch_spec_witness :
    mem0.t2 ≠ 0 ∧
    (((tcp_nearly_out_of_memory cfg0 st0 sock_hot).state.near_memory_pressure =
        NEARLY_FULL prot_hot.memory_allocated (scale_to_quantum cfg0 mem0.t1)) ∧
     ((tcp_nearly_out_of_memory cfg0 st0 sock_hot).events.countP
        (fun e => e.category == EventCategory.TCP_MEM_PRESSURE) =
        if NEARLY_FULL prot_hot.memory_allocated (scale_to_quantum cfg0 mem0.t1)
        then 1 else 0) ∧
     (∀ e ∈ (tcp_nearly_out_of_memory cfg0 st0 sock_hot).events,
        e.category = EventCategory.TCP_MEM_PRESSURE →
        e.old_values = mem0 ∧
        e.new_values = ⟨BPFTUNE_GROW_BY_QUARTER mem0.t0,
                        BPFTUNE_GROW_BY_QUARTER mem0.t1,
                        BPFTUNE_GROW_BY_QUARTER mem0.t2⟩)) :=
  ⟨by decide,
   pressure_branch_spec cfg0 st0 sock_hot prot_hot mem0 rfl rfl (by decide)⟩

/-- C6: in a non-aborting evaluation, `near_memory_exhaustion` is set
exactly to the `NEARLY_FULL` test against the converted max tier; exactly
one `TCP_MEM_EXHAUSTION` event is emitted when that test holds and none
otherwise; any such event grows only tier 2 of the original page-unit
triple (tiers 0 and 1 unchanged, also when the pressure branch fired in the
same call); and the returned boolean is the disjunction of the two flags
just computed. -/
theorem exhaustion_branch_spec (cfg : MemAccounting) (st : TunerState)
    (sk : Sock) (prot : SkProt) (mem : Triple)
    (hp : sk.sk_prot = some prot) (hm : prot.sysctl_mem = some mem)
    (h2 : mem.t2 ≠ 0) :
    ((tcp_nearly_out_of_memory cfg st sk).state.near_memory_exhaustion =
       NEARLY_FULL prot.memory_allocated (scale_to_quantum cfg mem.t2)) ∧
    ((tcp_nearly_out_of_memory cfg st sk).events.countP
       (fun e => e.category == EventCategory.TCP_MEM_EXHAUSTION) =
       if NEARLY_FULL prot.memory_allocated (scale_to_quantum cfg mem.t2)
       then 1 else 0) ∧
    (∀ e ∈ (tcp_nearly_out_of_memory cfg st sk).events,
       e.category = EventCategory.TCP_MEM_EXHAUSTION →
       e.old_values = mem ∧
       e.new_values = ⟨mem.t0, mem.t1, BPFTUNE_GROW_BY_QUARTER mem.t2⟩) ∧
    ((tcp_nearly_out_of_memory cfg st sk).ret =
       ((tcp_nearly_out_of_memory cfg st sk).state.near_memory_pressure ||
        (tcp_nearly_out_of_memory cfg st sk).state.near_memory_exhaustion)) := by
  simp only [tcp_nearly_out_of_memory, hp, hm, if_neg h2]
  by_cases h1 : NEARLY_FULL prot.memory_allocated (scale_to_quantum cfg mem.t1)
      = true
  · by_cases hE : NEARLY_FULL prot.memory_allocated (scale_to_quantum cfg mem.t2)
        = true
    · simp [h1, hE]
    · simp [h1, hE]
  · by_cases hE : NEARLY_FULL prot.memory_allocated (scale_to_quantum cfg mem.t2)
        = true
    · simp [h1, hE]
    · simp [h1, hE]

/-- Witness for C6 on `sock_crit`: allocated 180 against max tier 200
(720 > 600), so the exhaustion branch fires, and the pressure branch fires
in the same call (720 > 300). -/
theorem exhaustion_branch_spec_witness :
    mem0.t2 ≠ 0 ∧
    (((tcp_nearly_out_of_memory cfg0 st0 sock_crit).state.near_memory_exhaustion =
        NEARLY_FULL prot_crit.memory_allocated (scale_to_quantum cfg0 mem0.t2)) ∧
     ((tcp_nearly_out_of_memory cfg0 st0 sock_crit).events.countP
        (fun e => e.category == EventCategory.TCP_MEM_EXHAUSTION) =
        if NEARLY_FULL prot_crit.memory_allocated (scale_to_quantum cfg0 mem0.t2)
        then 1 else 0) ∧
     (∀ e ∈ (tcp_nearly_out_of_memory cfg0 st0 sock_crit).events,
        e.category = EventCategory.TCP_MEM_EXHAUSTION →
        e.old_values = mem0 ∧
        e.new_values = ⟨mem0.t0, mem0.t1, BPFTUNE_GROW_BY_QUARTER mem0.t2⟩) ∧
     ((tcp_nearly_out_of_memory cfg0 st0 sock_crit).ret =
        ((tcp_nearly_out_of_memory cfg0 st0 sock_crit).state.near_memory_pressure ||
         (tcp_nearly_out_of_memory cfg0 st0 sock_crit).state.near_memory_exhaustion))) :=
  ⟨by decide,
   exhaustion_branch_spec cfg0 st0 sock_crit prot_crit mem0 rfl rfl (by decide)⟩

/-- C7: every buffer-increase event either monitor emits proposes growing
only the max tier, by `old + old/4` with integer truncation (so new max ≥
old max whenever old max ≥ 0), leaving the low and default tiers unchanged;
and such an event is emitted only when the gating flags were clear on
entry, the buffer was nearly full against the configured max, and the
Pressure Evaluator, invoked first, returned false. -/
theorem buffer_increase_events (cfg : MemAccounting) (st : TunerState)
    (osk : Option Sock) (e : TuningEvent)
    (hcat : e.category = EventCategory.TCP_BUFFER_INCREASE) :
    (∀ v : Int, 0 ≤ v → v ≤ BPFTUNE_GROW_BY_QUARTER v) ∧
    (e ∈ (bpftune_sndbuf_expand cfg st osk).events →
      st.near_memory_pressure = false ∧ st.near_memory_exhaustion = false ∧
      ∃ sk net, osk = some sk ∧ sk.sk_net = some net ∧
        e.old_values = net.sysctl_tcp_wmem ∧
        e.new_values = ⟨net.sysctl_tcp_wmem.t0, net.sysctl_tcp_wmem.t1,
          BPFTUNE_GROW_BY_QUARTER net.sysctl_tcp_wmem.t2⟩ ∧
        NEARLY_FULL sk.sk_sndbuf net.sysctl_tcp_wmem.t2 = true ∧
        (tcp_nearly_out_of_memory cfg st sk).ret = false) ∧
    (e ∈ (bpftune_rcvbuf_adjust cfg st osk).events →
      st.near_memory_pressure = false ∧ st.near_memory_exhaustion = false ∧
      ∃ sk net, osk = some sk ∧ sk.sk_net = some net ∧
        e.old_values = net.sysctl_tcp_rmem ∧
        e.new_values = ⟨net.sysctl_tcp_rmem.t0, net.sysctl_tcp_rmem.t1,
          BPFTUNE_GROW_BY_QUARTER net.sysctl_tcp_rmem.t2⟩ ∧
        NEARLY_FULL sk.sk_rcvbuf net.sysctl_tcp_rmem.t2 = true ∧
        (tcp_nearly_out_of_memory cfg st sk).ret = false) := by
  refine ⟨?_, ?_, ?_⟩
  · intro v hv
    have h4 : 0 ≤ v.tdiv 4 := Int.tdiv_nonneg hv (by norm_num)
    simp only [BPFTUNE_GROW_BY_QUARTER]
    omega
  · intro he
    cases osk with
    | none => simp [bpftune_sndbuf_expand] at he
    | some sk =>
      cases hn : sk.sk_net with
      | none => simp [bpftune_sndbuf_expand, hn] at he
      | some net =>
        simp only [bpftune_sndbuf_expand, hn] at he
        by_cases hg : (st.near_memory_pressure || st.near_memory_exhaustion)
            = true
        · rw [if_pos hg] at he
          simp at he
        · rw [if_neg hg] at he
          simp only [Bool.or_eq_true, not_or, Bool.not_eq_true] at hg
          by_cases hf : NEARLY_FULL sk.sk_sndbuf net.sysctl_tcp_wmem.t2 = true
          · by_cases hr : (tcp_nearly_out_of_memory cfg st sk).ret = true
            · rw [if_pos hf, if_pos hr] at he
              exact absurd hcat (tcp_noom_events_not_increase cfg st sk e he)
            · rw [if_pos hf, if_neg hr] at he
              rw [Bool.not_eq_true] at hr
              rcases List.mem_append.1 he with h | h
              · exact absurd hcat (tcp_noom_events_not_increase cfg st sk e h)
              · simp only [List.mem_singleton] at h
                subst h
                exact ⟨hg.1, hg.2, sk, net, rfl, hn, rfl, rfl, hf, hr⟩
          · rw [if_neg hf] at he
            simp at he
  · intro he
    cases osk with
    | none => simp [bpftune_rcvbuf_adjust] at he
    | some sk =>
      cases hn : sk.sk_net with
      | none => simp [bpftune_rcvbuf_adjust, hn] at he
      | some net =>
        simp only [bpftune_rcvbuf_adjust, hn] at he
        by_cases hg : sk.sk_userlocks &&& SOCK_RCVBUF_LOCK ≠ 0 ∨
            st.near_memory_pressure = true ∨ st.near_memory_exhaustion = true
        · rw [if_pos hg] at he
          simp at he
        · rw [if_neg hg] at he
          have hflags : st.near_memory_pressure = false ∧
              st.near_memory_exhaustion = false := by
            constructor
            · cases h : st.near_memory_pressure
              · rfl
              · exact absurd (Or.inr (Or.inl h)) hg
            · cases h : st.near_memory_exhaustion
              · rfl
              · exact absurd (Or.inr (Or.inr h)) hg
          by_cases hf : NEARLY_FULL sk.sk_rcvbuf net.sysctl_tcp_rmem.t2 = true
          · by_cases hr : (tcp_nearly_out_of_memory cfg st sk).ret = true
            · rw [if_pos hf, if_pos hr] at he
              exact absurd hcat (tcp_noom_events_not_increase cfg st sk e he)
            · rw [if_pos hf, if_neg hr] at he
              rw [Bool.not_eq_true] at hr
              rcases List.mem_append.1 he with h | h
              · exact absurd hcat (tcp_noom_events_not_increase cfg st sk e h)
              · simp only [List.mem_singleton] at h
                subst h
                exact ⟨hflags.1, hflags.2, sk, net, rfl, hn, rfl, rfl, hf, hr⟩
          · rw [if_neg hf] at he
            simp at he

/-- Witness for C7: `ev0` is actually emitted for `sock0` from the clear
state, and the characterization holds of it. -/
theorem buffer_increase_events_witness :
    ev0.category = EventCategory.TCP_BUFFER_INCREASE ∧
    ev0 ∈ (bpftune_sndbuf_expand cfg0 st0 (some sock0)).events ∧
    ((∀ v : Int, 0 ≤ v → v ≤ BPFTUNE_GROW_BY_QUARTER v) ∧
     (ev0 ∈ (bpftune_sndbuf_expand cfg0 st0 (some sock0)).events →
       st0.near_memory_pressure = false ∧ st0.near_memory_exhaustion = false ∧
       ∃ sk net, (some sock0 : Option Sock) = some sk ∧ sk.sk_net = some net ∧
         ev0.old_values = net.sysctl_tcp_wmem ∧
         ev0.new_values = ⟨net.sysctl_tcp_wmem.t0, net.sysctl_tcp_wmem.t1,
           BPFTUNE_GROW_BY_QUARTER net.sysctl_tcp_wmem.t2⟩ ∧
         NEARLY_FULL sk.sk_sndbuf net.sysctl_tcp_wmem.t2 = true ∧
         (tcp_nearly_out_of_memory cfg0 st0 sk).ret = false) ∧
     (ev0 ∈ (bpftune_rcvbuf_adjust cfg0 st0 (some sock0)).events →
       st0.near_memory_pressure = false ∧ st0.near_memory_exhaustion = false ∧
       ∃ sk net, (some sock0 : Option Sock) = some sk ∧ sk.sk_net = some net ∧
         ev0.old_values = net.sysctl_tcp_rmem ∧
         ev0.new_values = ⟨net.sysctl_tcp_rmem.t0, net.sysctl_tcp_rmem.t1,
           BPFTUNE_GROW_BY_QUARTER net.sysctl_tcp_rmem.t2⟩ ∧
         NEARLY_FULL sk.sk_rcvbuf net.sysctl_tcp_rmem.t2 = true ∧
         (tcp_nearly_out_of_memory cfg0 st0 sk).ret = false)) :=
  ⟨rfl, by decide, buffer_increase_events cfg0 st0 (some sock0) ev0 rfl⟩

/-- The Pressure Evaluator neither reads nor writes the
`under_memory_pressure` flag: flipping it before the call flips it in the
result and changes nothing else. -/
theorem tcp_noom_under_frame (cfg : MemAccounting) (st : TunerState)
    (b : Bool) (sk : Sock) :
    tcp_nearly_out_of_memory cfg (set_under st b) sk =
      ⟨(tcp_nearly_out_of_memory cfg st sk).ret,
       set_under (tcp_nearly_out_of_memory cfg st sk).state b,
       (tcp_nearly_out_of_memory cfg st sk).events⟩ := by
  cases hp : sk.sk_prot with
  | none => simp [tcp_nearly_out_of_memory, hp, set_under]
  | some prot =>
    cases hm : prot.sysctl_mem with
    | none => simp [tcp_nearly_out_of_memory, hp, hm, set_under]
    | some mem =>
      by_cases h2 : mem.t2 = 0
      · simp [tcp_nearly_out_of_memory, hp, hm, h2, set_under]
      · simp only [tcp_nearly_out_of_memory, hp, hm, if_neg h2]
        rfl

/-- The send monitor neither reads nor writes `under_memory_pressure`. -/
theorem sndbuf_expand_under_frame (cfg : MemAccounting) (st : TunerState)
    (b : Bool) (osk : Option Sock) :
    bpftune_sndbuf_expand cfg (set_under st b) osk =
      ⟨(bpftune_sndbuf_expand cfg st osk).ret,
       set_under (bpftune_sndbuf_expand cfg st osk).state b,
       (bpftune_sndbuf_expand cfg st osk).events⟩ := by
  cases osk with
  | none => rfl
  | some sk =>
    cases hn : sk.sk_net with
    | none => simp [bpftune_sndbuf_expand, hn, set_under]
    | some net =>
      simp only [bpftune_sndbuf_expand, hn]
      rw [tcp_noom_under_frame cfg st b sk]
      dsimp only [set_under]
      by_cases hg : (st.near_memory_pressure || st.near_memory_exhaustion)
          = true
      · rw [if_pos hg, if_pos hg]
      · rw [if_neg hg, if_neg hg]
        by_cases hf : NEARLY_FULL sk.sk_sndbuf net.sysctl_tcp_wmem.t2 = true
        · rw [if_pos hf, if_pos hf]
          by_cases hr : (tcp_nearly_out_of_memory cfg st sk).ret = true
          · rw [if_pos hr, if_pos hr]
          · rw [if_neg hr, if_neg hr]
        · rw [if_neg hf, if_neg hf]

/-- The receive monitor neither reads nor writes `under_memory_pressure`. -/
theorem rcvbuf_adjust_under_frame (cfg : MemAccounting) (st : TunerState)
    (b : Bool) (osk : Option Sock) :
    bpftune_rcvbuf_adjust cfg (set_under st b) osk =
      ⟨(bpftune_rcvbuf_adjust cfg st osk).ret,
       set_under (bpftune_rcvbuf_adjust cfg st osk).state b,
       (bpftune_rcvbuf_adjust cfg st osk).events⟩ := by
  cases osk with
  | none => rfl
  | some sk =>
    cases hn : sk.sk_net with
    | none => simp [bpftune_rcvbuf_adjust, hn, set_under]
    | some net =>
      simp only [bpftune_rcvbuf_adjust, hn]
      rw [tcp_noom_under_frame cfg st b sk]
      dsimp only [set_under]
      by_cases hg : sk.sk_userlocks &&& SOCK_RCVBUF_LOCK ≠ 0 ∨
          st.near_memory_pressure = true ∨ st.near_memory_exhaustion = true
      · rw [if_pos hg, if_pos hg]
      · rw [if_neg hg, if_neg hg]
        by_cases hf : NEARLY_FULL sk.sk_rcvbuf net.sysctl_tcp_rmem.t2 = true
        · rw [if_pos hf, if_pos hf]
          by_cases hr : (tcp_nearly_out_of_memory cfg st sk).ret = true
          · rw [if_pos hr, if_pos hr]
          · rw [if_neg hr, if_neg hr]
        · rw [if_neg hf, if_neg hf]

/-- C9: the enter/leave memory-pressure signals only set
`under_memory_pressure` to true resp. false — they return 0, emit no event
and leave every other field unchanged — and `under_memory_pressure` is
never read by the Pressure Evaluator or by either growth monitor: flipping
it before any of those calls flips it in the result state and changes
neither the returned value, nor the emitted events, nor the
`near_memory_pressure`/`near_memory_exhaustion` outcome. -/
theorem memory_pressure_signals_spec (cfg : MemAccounting) (st : TunerState)
    (b : Bool) (osk : Option Sock) (sk : Sock) :
    bpftune_enter_memory_pressure st osk = ⟨0, set_under st true, []⟩ ∧
    bpftune_leave_memory_pressure st osk = ⟨0, set_under st false, []⟩ ∧
    tcp_nearly_out_of_memory cfg (set_under st b) sk =
      ⟨(tcp_nearly_out_of_memory cfg st sk).ret,
       set_under (tcp_nearly_out_of_memory cfg st sk).state b,
       (tcp_nearly_out_of_memory cfg st sk).events⟩ ∧
    bpftune_sndbuf_expand cfg (set_under st b) osk =
      ⟨(bpftune_sndbuf_expand cfg st osk).ret,
       set_under (bpftune_sndbuf_expand cfg st osk).state b,
       (bpftune_sndbuf_expand cfg st osk).events⟩ ∧
    bpftune_rcvbuf_adjust cfg (set_under st b) osk =
      ⟨(bpftune_rcvbuf_adjust cfg st osk).ret,
       set_under (bpftune_rcvbuf_adjust cfg st osk).state b,
       (bpftune_rcvbuf_adjust cfg st osk).events⟩ :=
  ⟨rfl, rfl, tcp_noom_under_frame cfg st b sk,
   sndbuf_expand_under_frame cfg st b osk,
   rcvbuf_adjust_under_frame cfg st b osk⟩

end BpfTune
